import Mathlib

/-!
Shallow embedding of `pyramid_openapi3/__init__.py` (the pyramid_openapi3
add-on).  Pure data flow of the Python functions is translated into Lean
functions; Python exceptions become explicit outcome constructors or
`Except`/`Option` values; the external `openapi-core` validators, YAML
parsing and URL parsing are black boxes, represented by function parameters
or by already-parsed fields (per the spec, they are out of scope).
-/

namespace PyramidOpenapi3

/-- A structured validation error produced by the validation library
(`openapi-core`).  The add-on code only ever distinguishes whether an error
is an `InvalidSecurity` instance (`isinstance(error, InvalidSecurity)` in
`openapi_validation_error`); every other error object is opaque to it. -/
inductive OpenAPIError where
  | invalidSecurity
  | otherError (msg : String)
deriving DecidableEq, Repr

/-- The structured result of validating one request: carries the list of
errors (`request.openapi_validated.errors`); an empty list means success. -/
structure ValidationResult where
  errors : List OpenAPIError
deriving DecidableEq, Repr

/-- The exception context dispatched to the `openapi_validation_error`
exception view: either a `RequestValidationError` or a
`ResponseValidationError`, each carrying its list of errors
(`context.errors`). -/
inductive ErrorContext where
  | requestValidationError (errors : List OpenAPIError)
  | responseValidationError (errors : List OpenAPIError)
deriving DecidableEq, Repr

/-- `context.errors` of either exception class. -/
def ErrorContext.errors : ErrorContext → List OpenAPIError
  | .requestValidationError es => es
  | .responseValidationError es => es

/-- Status-code selection of `openapi_validation_error` (src lines 292-301):
for a `RequestValidationError` it starts from `status_code = 400` and the
`for` loop sets `status_code = 401` whenever it sees an `InvalidSecurity`
error; for a `ResponseValidationError` it is 500.  (The JSON body, produced
by the configurable `extract_errors`, lives in `exceptions.py` and is not
part of the status selection.) -/
def openapi_validation_error (context : ErrorContext) : Nat :=
  match context with
  | .requestValidationError errs =>
      errs.foldl
        (fun status_code error =>
          match error with
          | .invalidSecurity => 401
          | .otherError _ => status_code)
        400
  | .responseValidationError _ => 500

/-- The `for error in context.errors` loop keeps the accumulator unless it
meets an `InvalidSecurity`, in which case the accumulator becomes 401 and
stays 401 for the rest of the list. -/
theorem status_fold_eq (errs : List OpenAPIError) (s : Nat) :
    errs.foldl
      (fun status_code error =>
        match error with
        | .invalidSecurity => 401
        | .otherError _ => status_code)
      s =
    if errs.contains .invalidSecurity then 401 else s := by
  induction errs generalizing s with
  | nil => simp
  | cons e es ih =>
      cases e with
      | invalidSecurity =>
          simp [List.foldl_cons, ih 401, List.contains_cons]
      | otherError m =>
          simp [List.foldl_cons, ih s, List.contains_cons]

/-- Claim C2: the error view maps a `RequestValidationError` to status 400,
except that any `InvalidSecurity` error among its errors escalates the whole
response to 401; a `ResponseValidationError` maps to 500 unconditionally,
whatever errors it carries. -/
theorem openapi_validation_error_status
    (reqErrs respErrs : List OpenAPIError) :
    openapi_validation_error (.requestValidationError reqErrs) =
      (if reqErrs.contains .invalidSecurity then 401 else 400) ∧
    openapi_validation_error (.responseValidationError respErrs) = 500 := by
  constructor
  · simpa [openapi_validation_error] using status_fold_eq reqErrs 400
  · rfl

/-! ### The request-validation view deriver (`openapi_view`, src lines 67-117) -/

/-- The two per-request environ keys the wrapper writes
(`pyramid_openapi3.validate_response`, `pyramid_openapi3.validate_request`);
`none` means the key is absent from `request.environ`. -/
structure Environ where
  validate_response : Option Bool := none
  validate_request : Option Bool := none
deriving DecidableEq, Repr

/-- The two registry settings the wrapper reads
(`pyramid_openapi3.enable_request_validation`,
`pyramid_openapi3.enable_response_validation`); `none` means the setting is
unset, so `settings.get(key, True)` yields the default `True`.  A value that
is set is modelled after `asbool` has interpreted it. -/
structure Settings where
  enable_request_validation : Option Bool := none
  enable_response_validation : Option Bool := none
deriving DecidableEq, Repr

/-- `asbool(request.registry.settings.get(key, True))`: the default when the
setting is unset is `True`, and `asbool(True) = True`. -/
def asbool_get_default_true (value : Option Bool) : Bool :=
  value.getD true

/-- The slice of a Pyramid request the wrapper touches: the registry
settings, `request.application_url`, `request.environ`, and the
`request.openapi_validated` attribute it may set. -/
structure Request where
  settings : Settings
  application_url : String
  environ : Environ := {}
  openapi_validated : Option ValidationResult := none
deriving DecidableEq, Repr

/-- A view's HTTP response (opaque to this add-on). -/
structure Response where
  body : String
deriving DecidableEq, Repr

/-- The mutable `base_url` fields of the two shared validator objects stored
in the `pyramid_openapi3` settings bag; the wrapper assigns
`request.application_url` to both before validating. -/
structure Validators where
  request_validator_base_url : Option String := none
  response_validator_base_url : Option String := none
deriving DecidableEq, Repr

/-- Everything observable about one run of the wrapped view: the request as
the wrapper left it (environ writes and `openapi_validated`), the shared
validator state, the outcome (`Except.error errs` models a raised
`RequestValidationError(errors=errs)`), and whether the wrapped handler body
was invoked. -/
structure WrapperOutcome where
  request : Request
  validators : Validators
  result : Except (List OpenAPIError) Response
  handler_invoked : Bool

/-- `wrapper_view` (src lines 79-111), the closure `openapi_view` installs
when the view opted in.  `request_validator` stands for
`settings["request_validator"].validate ∘ PyramidOpenAPIRequestFactory.create`
(the external library call); `view` is the wrapped handler. -/
def wrapper_view (request_validator : Request → ValidationResult)
    (view : Request → Response) (request : Request)
    (validators : Validators) : WrapperOutcome :=
  let validate_request :=
    asbool_get_default_true request.settings.enable_request_validation
  let validate_response :=
    asbool_get_default_true request.settings.enable_response_validation
  let request := { request with environ :=
    { request.environ with validate_response := some validate_response } }
  let validators := { validators with
    request_validator_base_url := some request.application_url,
    response_validator_base_url := some request.application_url }
  if validate_request then
    let request := { request with environ :=
      { request.environ with validate_request := some true } }
    let validated := request_validator request
    let request := { request with openapi_validated := some validated }
    if validated.errors ≠ [] then
      { request := request, validators := validators,
        result := Except.error validated.errors, handler_invoked := false }
    else
      { request := request, validators := validators,
        result := Except.ok (view request), handler_invoked := true }
  else
    { request := request, validators := validators,
      result := Except.ok (view request), handler_invoked := true }

/-- The view deriver `openapi_view` (src lines 67-114): when
`info.options.get("openapi")` is truthy (`options_openapi = true`) it
returns the wrapper closure, otherwise it returns the original view object
itself. -/
def openapi_view (view : Request → Response)
    (request_validator : Request → ValidationResult)
    (options_openapi : Bool) :
    (Request → Response) ⊕ (Request → Validators → WrapperOutcome) :=
  if options_openapi then Sum.inr (wrapper_view request_validator view)
  else Sum.inl view

/-- The request as the wrapped handler (and the request validator) sees it
when request validation is enabled: `validate_response` recorded on the
environ, then `validate_request` set to `True`. -/
def validated_request (request : Request) : Request :=
  { request with environ :=
    { validate_response :=
        some (asbool_get_default_true request.settings.enable_response_validation),
      validate_request := some true } }

/-- Claim C1: with request validation enabled, the wrapper stores the full
structured validation result on `request.openapi_validated`; if that result
carries any errors it raises `RequestValidationError` with exactly that
error list and the handler body is never invoked; the handler runs only when
the error list is empty. -/
theorem wrapper_view_request_validation_gate
    (request_validator : Request → ValidationResult)
    (view : Request → Response) (request : Request) (validators : Validators)
    (h : asbool_get_default_true request.settings.enable_request_validation
        = true) :
    (wrapper_view request_validator view request validators).request.openapi_validated
        = some (request_validator (validated_request request)) ∧
    ((request_validator (validated_request request)).errors ≠ [] →
        (wrapper_view request_validator view request validators).result
            = Except.error (request_validator (validated_request request)).errors ∧
        (wrapper_view request_validator view request validators).handler_invoked
            = false) ∧
    ((request_validator (validated_request request)).errors = [] →
        (wrapper_view request_validator view request validators).handler_invoked
            = true ∧
        (wrapper_view request_validator view request validators).result
            = Except.ok (view { validated_request request with
                openapi_validated :=
                  some (request_validator (validated_request request)) })) := by
  obtain ⟨settings, app_url, environ, ov⟩ := request
  by_cases hc :
      (request_validator (validated_request ⟨settings, app_url, environ, ov⟩)).errors = [] <;>
    simp_all [wrapper_view, validated_request]

/-- Concrete run of `wrapper_view_request_validation_gate`: both settings
unset (defaults), a validator reporting one security error; the wrapper
raises with that list and never invokes the handler. -/
theorem wrapper_view_request_validation_gate_witness :
    (wrapper_view (fun _ => ⟨[OpenAPIError.invalidSecurity]⟩)
        (fun _ => ⟨"ok"⟩)
        { settings := {}, application_url := "http://example.com" }
        {}).result = Except.error [OpenAPIError.invalidSecurity] ∧
    (wrapper_view (fun _ => ⟨[OpenAPIError.invalidSecurity]⟩)
        (fun _ => ⟨"ok"⟩)
        { settings := {}, application_url := "http://example.com" }
        {}).handler_invoked = false :=
  (wrapper_view_request_validation_gate
    (fun _ => ⟨[OpenAPIError.invalidSecurity]⟩) (fun _ => ⟨"ok"⟩)
    { settings := {}, application_url := "http://example.com" } {} rfl).2.1
    (by decide)

/-- The request as the handler sees it when request validation is disabled:
only `validate_response` has been recorded on the environ. -/
def flagged_request (request : Request) : Request :=
  let validate_response :=
    asbool_get_default_true request.settings.enable_response_validation
  { request with environ :=
    { request.environ with validate_response := some validate_response } }

/-- Claim C9: both validation flags are read with default `True` when unset
(`asbool_get_default_true none = true`); the response-validation flag's
value, whatever it is, is recorded on the per-request environ in every run;
and when the request-validation flag is false no request validation happens
(`openapi_validated` and the `validate_request` environ key are untouched)
and the handler runs normally, its response returned unchanged. -/
theorem wrapper_view_flags_and_disabled_validation
    (request_validator : Request → ValidationResult)
    (view : Request → Response) (request : Request) (validators : Validators) :
    asbool_get_default_true none = true ∧
    (wrapper_view request_validator view request validators).request.environ.validate_response
        = some (asbool_get_default_true request.settings.enable_response_validation) ∧
    (asbool_get_default_true request.settings.enable_request_validation = false →
        (wrapper_view request_validator view request validators).handler_invoked
            = true ∧
        (wrapper_view request_validator view request validators).result
            = Except.ok (view (flagged_request request)) ∧
        (wrapper_view request_validator view request validators).request.openapi_validated
            = request.openapi_validated ∧
        (wrapper_view request_validator view request validators).request.environ.validate_request
            = request.environ.validate_request) := by
  refine ⟨rfl, ?_⟩
  obtain ⟨settings, app_url, environ, ov⟩ := request
  by_cases h : asbool_get_default_true settings.enable_request_validation = true
  · by_cases hc :
        (request_validator (validated_request ⟨settings, app_url, environ, ov⟩)).errors
          = [] <;>
      simp_all [wrapper_view, validated_request, flagged_request]
  · simp_all [wrapper_view, flagged_request]

/-- Concrete run of `wrapper_view_flags_and_disabled_validation`: request
validation switched off, response validation unset; the handler runs and its
response comes back unchanged. -/
theorem wrapper_view_flags_and_disabled_validation_witness :
    (wrapper_view (fun _ => ⟨[OpenAPIError.otherError "e"]⟩) (fun _ => ⟨"ok"⟩)
        { settings := { enable_request_validation := some false },
          application_url := "http://example.com" } {}).handler_invoked
      = true :=
  ((wrapper_view_flags_and_disabled_validation
    (fun _ => ⟨[OpenAPIError.otherError "e"]⟩) (fun _ => ⟨"ok"⟩)
    { settings := { enable_request_validation := some false },
      application_url := "http://example.com" } {}).2.2 rfl).1

/-- Claim C10: a view whose deriver options carry no truthy `openapi` entry
is returned by `openapi_view` as the original view object itself
(`Sum.inl view`), so no validation, flag recording, validator base-URL
mutation or environ write can happen for requests dispatched to it. -/
theorem openapi_view_identity_without_opt_in
    (view : Request → Response)
    (request_validator : Request → ValidationResult)
    (options_openapi : Bool) (h : options_openapi = false) :
    openapi_view view request_validator options_openapi = Sum.inl view := by
  subst h
  simp [openapi_view]

/-- Concrete run of `openapi_view_identity_without_opt_in` on a concrete
view and validator. -/
theorem openapi_view_identity_without_opt_in_witness :
    openapi_view (fun _ => ⟨"plain"⟩) (fun _ => ⟨[]⟩) false
      = Sum.inl (fun _ => ⟨"plain"⟩) :=
  openapi_view_identity_without_opt_in (fun _ => ⟨"plain"⟩) (fun _ => ⟨[]⟩)
    false rfl

/-! ### Startup endpoint coverage checker (`validate_routes`, src lines 304-348) -/

/-- Python `str.replace(pattern, repl)` on char lists (external string
library behaviour: replace every non-overlapping occurrence, scanning left
to right).  A fuel argument keeps the recursion structural; fuel `s.length`
suffices because every step consumes at least one character.  For the empty
pattern the scan leaves the string unchanged, which agrees with Python
exactly when `repl = ""` — the only replacement this code ever does. -/
def replace_fuel (pat repl : List Char) : Nat → List Char → List Char
  | 0, s => s
  | _ + 1, [] => []
  | fuel + 1, c :: rest =>
    if pat ≠ [] ∧ pat.isPrefixOf (c :: rest) then
      repl ++ replace_fuel pat repl fuel ((c :: rest).drop pat.length)
    else
      c :: replace_fuel pat repl fuel rest

/-- `s.replace(pat, repl)` of Python, via `replace_fuel`. -/
def str_replace (s pat repl : String) : String :=
  ⟨replace_fuel pat.data repl.data s.data.length s.data⟩

/-- `s.startswith(p)` of Python. -/
def str_starts_with (s p : String) : Bool :=
  p.data.isPrefixOf s.data

/-- One entry of `spec.servers`; `url_path` is `urlparse(server.url).path`
(URL parsing is an external library, so the parsed path is the datum). -/
structure Server where
  url_path : String
deriving DecidableEq, Repr

/-- The slice of the parsed OpenAPI spec object this add-on reads: its
server entries and its declared path keys (`spec.paths.keys()`). -/
structure Spec where
  servers : List Server
  paths : List String
deriving DecidableEq, Repr

/-- The `pyramid_openapi3` configuration bag stored in the registry settings
by the spec-registration directives.  The two validator objects are
determined by the spec they wrap (`RequestValidator(spec, ...)`), modelled
by recording that spec; `none` models a dict without the key. -/
structure Pyramid3Bag where
  filepath : String
  spec_route_name : String
  spec : Option Spec := none
  request_validator : Option Spec := none
  response_validator : Option Spec := none
deriving DecidableEq, Repr

/-- The application state `validate_routes` inspects at `ApplicationCreated`
time: the optional settings bag, the raw
`pyramid_openapi3.enable_endpoint_validation` setting (`none` = unset =
default `True`), and the path templates of the registered routes
(`route.path` over `app.routes_mapper.routes`). -/
structure App where
  pyramid_openapi3 : Option Pyramid3Bag := none
  enable_endpoint_validation : Option Bool := none
  routes : List String := []
deriving DecidableEq, Repr

/-- The server-URL path prefixes collected by the loop at src lines 329-333:
every server URL's path component other than a bare `/`. -/
def server_prefixes (spec : Spec) : List String :=
  (spec.servers.map Server.url_path).filter (fun path => path != "/")

/-- `remove_prefixes` (src lines 335-339): normalize the path to a leading
`/`, then delete every occurrence of each prefix by plain (unanchored)
substring replacement. -/
def remove_prefixes (prefixes : List String) (path : String) : String :=
  let path := if ¬ str_starts_with path "/" then "/" ++ path else path
  prefixes.foldl (fun path pfx => str_replace path pfx "") path

/-- The prefix-stripped registered route paths (src lines 342-344). -/
def stripped_routes (spec : Spec) (routes : List String) : List String :=
  routes.map (remove_prefixes (server_prefixes spec))

/-- `missing = [r for r in paths if r not in routes]` (src line 346). -/
def missing_endpoints_list (spec : Spec) (routes : List String) : List String :=
  spec.paths.filter (fun r => ! (stripped_routes spec routes).contains r)

/-- How one run of `validate_routes` ends: an early return with a logged
warning (no settings bag), an early return with endpoint validation
disabled, a crash on a bag without a spec (never produced by this code), a
clean pass, or a raised `MissingEndpointsError` with its path list. -/
inductive RoutesOutcome where
  | warning_no_settings
  | endpoint_validation_disabled
  | attribute_error_no_spec
  | ok
  | missing_endpoints (missing : List String)
deriving DecidableEq, Repr

/-- `validate_routes` (src lines 304-348). -/
def validate_routes (app : App) : RoutesOutcome :=
  match app.pyramid_openapi3 with
  | none => .warning_no_settings
  | some openapi_settings =>
    if (app.enable_endpoint_validation.getD true) = false then
      .endpoint_validation_disabled
    else
      match openapi_settings.spec with
      | none => .attribute_error_no_spec
      | some spec =>
        let missing := missing_endpoints_list spec app.routes
        if missing ≠ [] then .missing_endpoints missing else .ok

/-- Claim C3: with a spec configured and endpoint validation enabled, the
checker passes exactly when every spec path equals some registered route
path after prefix stripping; otherwise it raises a single
`MissingEndpointsError` carrying the complete list of missing paths. -/
theorem validate_routes_endpoint_coverage (app : App) (bag : Pyramid3Bag)
    (spec : Spec) (h1 : app.pyramid_openapi3 = some bag)
    (h2 : app.enable_endpoint_validation.getD true = true)
    (h3 : bag.spec = some spec) :
    (missing_endpoints_list spec app.routes = [] ↔
      ∀ p ∈ spec.paths, p ∈ stripped_routes spec app.routes) ∧
    (missing_endpoints_list spec app.routes = [] →
      validate_routes app = .ok) ∧
    (missing_endpoints_list spec app.routes ≠ [] →
      validate_routes app
        = .missing_endpoints (missing_endpoints_list spec app.routes)) := by
  refine ⟨?_, ?_, ?_⟩
  · simp [missing_endpoints_list, List.filter_eq_nil_iff]
  · intro h
    simp [validate_routes, h1, h2, h3, h]
  · intro h
    simp [validate_routes, h1, h2, h3, h]

/-- Concrete run of `validate_routes_endpoint_coverage`: the spec declares
`/foo` and `/bar` behind a `/api` server prefix, only `/foo` has a route;
the checker raises once, naming exactly `/bar`. -/
theorem validate_routes_endpoint_coverage_witness :
    validate_routes
        { pyramid_openapi3 := some
            { filepath := "openapi.yaml", spec_route_name := "spec",
              spec := some { servers := [⟨"/api"⟩], paths := ["/foo", "/bar"] } },
          routes := ["/api/foo"] }
      = .missing_endpoints ["/bar"] :=
  (validate_routes_endpoint_coverage
      { pyramid_openapi3 := some
          { filepath := "openapi.yaml", spec_route_name := "spec",
            spec := some { servers := [⟨"/api"⟩], paths := ["/foo", "/bar"] } },
        routes := ["/api/foo"] }
      { filepath := "openapi.yaml", spec_route_name := "spec",
        spec := some { servers := [⟨"/api"⟩], paths := ["/foo", "/bar"] } }
      { servers := [⟨"/api"⟩], paths := ["/foo", "/bar"] }
      rfl rfl rfl).2.2 (by decide)

/-- Anchored prefix removal, written from the spec's contrast phrase
"merely removing a leading prefix": strips each prefix only when it sits at
the start of the path.  Used solely to compare against `remove_prefixes`. -/
def remove_leading_prefixes (prefixes : List String) (path : String) : String :=
  let path := if ¬ str_starts_with path "/" then "/" ++ path else path
  prefixes.foldl
    (fun path pfx =>
      if str_starts_with path pfx then ⟨path.data.drop pfx.data.length⟩
      else path)
    path

/-- Claim C6: prefix removal is a plain unanchored substring replacement —
it deletes the `/api` prefix both at the start and in the middle of
`/api/foo/api/bar`, and on `/foo/api/bar` (where the prefix occurs only as
a non-leading substring) its result differs from merely removing a leading
prefix. -/
theorem remove_prefixes_unanchored_substring :
    remove_prefixes ["/api"] "/api/foo/api/bar" = "/foo/bar" ∧
    remove_leading_prefixes ["/api"] "/api/foo/api/bar" = "/foo/api/bar" ∧
    remove_prefixes ["/api"] "/foo/api/bar" = "/foo/bar" ∧
    remove_leading_prefixes ["/api"] "/foo/api/bar" = "/foo/api/bar" ∧
    remove_prefixes ["/api"] "/foo/api/bar"
      ≠ remove_leading_prefixes ["/api"] "/foo/api/bar" := by
  decide

/-- Claim C8: the checker returns without raising in exactly two skip
cases — no settings bag configured (warning logged), or endpoint validation
explicitly disabled; in every other situation it goes on to check routes. -/
theorem validate_routes_skip_cases (app : App) :
    (app.pyramid_openapi3 = none →
      validate_routes app = .warning_no_settings) ∧
    (app.pyramid_openapi3 ≠ none →
      app.enable_endpoint_validation.getD true = false →
      validate_routes app = .endpoint_validation_disabled) ∧
    ((validate_routes app = .warning_no_settings ∨
        validate_routes app = .endpoint_validation_disabled) ↔
      (app.pyramid_openapi3 = none ∨
        (app.pyramid_openapi3 ≠ none ∧
          app.enable_endpoint_validation.getD true = false))) := by
  obtain ⟨bag, flag, routes⟩ := app
  cases bag with
  | none => simp [validate_routes]
  | some b =>
      by_cases hf : flag.getD true = false
      · simp [validate_routes, hf]
      · cases hs : b.spec with
        | none => simp [validate_routes, hf, hs]
        | some s =>
            by_cases hm : missing_endpoints_list s routes = [] <;>
              simp [validate_routes, hf, hs, hm]

/-- Concrete runs of `validate_routes_skip_cases`: a bare application skips
with a warning; one with a bag but endpoint validation disabled skips
silently. -/
theorem validate_routes_skip_cases_witness :
    validate_routes {} = .warning_no_settings ∧
    validate_routes
        { pyramid_openapi3 := some
            { filepath := "openapi.yaml", spec_route_name := "spec" },
          enable_endpoint_validation := some false }
      = .endpoint_validation_disabled :=
  ⟨(validate_routes_skip_cases {}).1 rfl,
    (validate_routes_skip_cases
      { pyramid_openapi3 := some
          { filepath := "openapi.yaml", spec_route_name := "spec" },
        enable_endpoint_validation := some false }).2.1 (by decide) rfl⟩

/-! ### Configuration directives (src lines 120-275) -/

/-- The `ConfigurationError`s this module raises, by call site. -/
inductive ConfigErr where
  | spec_already_configured
  | route_filename_not_allowed
  | need_spec_for_explorer
deriving DecidableEq, Repr

/-- The slice of `config.registry.settings` (plus the routes the directives
add) that the registration directives touch. -/
structure ConfigState where
  pyramid_openapi3 : Option Pyramid3Bag := none
  routes : List (String × String) := []
deriving DecidableEq, Repr

/-- The guard shared by both spec directives (src lines 187-188 and
238-239): `settings = config.registry.settings.get("pyramid_openapi3"); if
settings and settings.get("spec") is not None`. -/
def spec_configured (settings : Option Pyramid3Bag) : Bool :=
  match settings with
  | some bag => bag.spec.isSome
  | none => false

/-- The `register()` closure of `add_spec_view` (src lines 186-219).
`create_spec` stands for `create_spec ∘ validate_spec ∘ read_yaml_file`
(external YAML parsing and spec construction).  The pair's second component
is the `ConfigurationError` the call raises, if any; the first is the
configuration state afterwards — unchanged whenever an error is raised,
since the raise precedes every mutation. -/
def add_spec_view (create_spec : String → Spec) (config : ConfigState)
    (filepath route route_name : String) :
    ConfigState × Option ConfigErr :=
  if spec_configured config.pyramid_openapi3 then
    (config, some .spec_already_configured)
  else
    let spec := create_spec filepath
    ({ config with
        routes := config.routes ++ [(route_name, route)],
        pyramid_openapi3 := some
          { filepath := filepath, spec_route_name := route_name,
            spec := some spec, request_validator := some spec,
            response_validator := some spec } },
      none)

/-- The `register()` closure of `add_spec_view_directory` (src lines
237-275): same already-configured guard first, then the check that `route`
is not a filename; on success the route serves the resolved root file under
`route` (the filesystem resolution of `Path(filepath)` is external). -/
def add_spec_view_directory (create_spec : String → Spec)
    (config : ConfigState) (filepath route route_name : String) :
    ConfigState × Option ConfigErr :=
  if spec_configured config.pyramid_openapi3 then
    (config, some .spec_already_configured)
  else if route.endsWith ".yaml" || route.endsWith ".yml"
      || route.endsWith ".json" then
    (config, some .route_filename_not_allowed)
  else
    let spec := create_spec filepath
    ({ config with
        routes := config.routes ++ [(route_name, route)],
        pyramid_openapi3 := some
          { filepath := filepath, spec_route_name := route_name,
            spec := some spec, request_validator := some spec,
            response_validator := some spec } },
      none)

/-- Claim C5: once a spec is registered, any second invocation of either
spec-registration directive, whatever its arguments, raises
`ConfigurationError` and leaves the configuration state — bag, spec,
validators, spec route name — exactly as it was. -/
theorem spec_directives_second_call_fails (create_spec : String → Spec)
    (config : ConfigState) (bag : Pyramid3Bag)
    (h1 : config.pyramid_openapi3 = some bag) (h2 : bag.spec.isSome = true) :
    ∀ filepath route route_name : String,
      add_spec_view create_spec config filepath route route_name
          = (config, some .spec_already_configured) ∧
      add_spec_view_directory create_spec config filepath route route_name
          = (config, some .spec_already_configured) := by
  intro filepath route route_name
  constructor <;>
    simp [add_spec_view, add_spec_view_directory, spec_configured, h1, h2]

/-- Concrete run of `spec_directives_second_call_fails`: a registered bag,
then second calls of both directives with fresh arguments fail and change
nothing. -/
theorem spec_directives_second_call_fails_witness :
    add_spec_view (fun _ => { servers := [], paths := [] })
        { pyramid_openapi3 := some
            { filepath := "openapi.yaml", spec_route_name := "spec",
              spec := some { servers := [], paths := [] } } }
        "other.yaml" "/other.yaml" "other"
      = ({ pyramid_openapi3 := some
            { filepath := "openapi.yaml", spec_route_name := "spec",
              spec := some { servers := [], paths := [] } } },
          some .spec_already_configured) :=
  (spec_directives_second_call_fails (fun _ => { servers := [], paths := [] })
      { pyramid_openapi3 := some
          { filepath := "openapi.yaml", spec_route_name := "spec",
            spec := some { servers := [], paths := [] } } }
      { filepath := "openapi.yaml", spec_route_name := "spec",
        spec := some { servers := [], paths := [] } }
      rfl rfl "other.yaml" "/other.yaml" "other").1

/-- The `register()` closure of `add_explorer_view` (src lines 137-161): it
resolves the template asset (filesystem, external) and adds the explorer
route and view.  It performs no check of the `pyramid_openapi3` settings —
that check sits inside the per-request `explorer_view` closure. -/
def add_explorer_view (config : ConfigState) (route route_name : String) :
    ConfigState × Option ConfigErr :=
  ({ config with routes := config.routes ++ [(route_name, route)] }, none)

/-- The per-request `explorer_view` closure (src lines 140-154): raises
`ConfigurationError` when `settings.get("pyramid_openapi3")` is `None` at
the time a client requests the page; otherwise substitutes the UI version
and the spec route URL into the template (template file reading is
external; `route_url` is the framework's URL generator). -/
def explorer_view (settings : Option Pyramid3Bag)
    (route_url : String → String) (ui_version : String) :
    Except ConfigErr Response :=
  match settings with
  | none => Except.error .need_spec_for_explorer
  | some bag =>
      Except.ok ⟨"ui_version=" ++ ui_version ++ ";spec_url="
        ++ route_url bag.spec_route_name⟩

/-- Counterexample to claim C7 as stated: on an application with no spec,
registering the explorer raises nothing at configuration time and leaves
the spec unconfigured; the `ConfigurationError` is raised only when a
client requests the explorer page. -/
theorem explorer_no_config_time_failure :
    (add_explorer_view {} "/docs/" "pyramid_openapi3.explorer").2 = none ∧
    (add_explorer_view {} "/docs/"
        "pyramid_openapi3.explorer").1.pyramid_openapi3 = none ∧
    explorer_view none (fun _ => "") "3.17.1"
      = Except.error .need_spec_for_explorer :=
  ⟨rfl, rfl, rfl⟩

/-- Claim C7 amended: registering the explorer on an application that never
registers a spec is not a configuration-time error — registration succeeds
and the `ConfigurationError` surfaces as a per-request condition: every
request to the explorer view on such an application raises it. -/
theorem explorer_without_spec_fails_at_request_time (config : ConfigState)
    (route route_name : String) (h : config.pyramid_openapi3 = none) :
    (add_explorer_view config route route_name).2 = none ∧
    ∀ (route_url : String → String) (ui_version : String),
      explorer_view
          (add_explorer_view config route route_name).1.pyramid_openapi3
          route_url ui_version
        = Except.error .need_spec_for_explorer := by
  refine ⟨rfl, ?_⟩
  intro route_url ui_version
  simp [add_explorer_view, explorer_view, h]

/-- Concrete run of `explorer_without_spec_fails_at_request_time` on a bare
application. -/
theorem explorer_without_spec_fails_at_request_time_witness :
    explorer_view
        (add_explorer_view {} "/docs/"
          "pyramid_openapi3.explorer").1.pyramid_openapi3
        (fun name => "http://example.com/" ++ name) "3.17.1"
      = Except.error .need_spec_for_explorer :=
  (explorer_without_spec_fails_at_request_time {} "/docs/"
      "pyramid_openapi3.explorer" rfl).2
    (fun name => "http://example.com/" ++ name) "3.17.1"

/-! ### Startup minimal-responses checker (`validate_minimal_responses`,
src lines 351-373).  The source file contains the docstring and the three
settings reads of this subscriber; the checking body that follows them is
not part of the source file, so it is modelled from the spec (§4.5). -/

/-- One operation of the spec: a (path, HTTP method) pair with its declared
response status codes and whether it declares any parameters. -/
structure Operation where
  path : String
  method : String
  responses : List Nat
  has_parameters : Bool
deriving DecidableEq, Repr

/-- The three settings `validate_minimal_responses` reads (src lines
365-373), `none` meaning unset: the defaults are `[200, 400, 500]`, `[404]`
and the empty override mapping `{}`. -/
structure MinimalResponsesSettings where
  minimal_responses : Option (List Nat) := none
  minimal_responses_with_parameters : Option (List Nat) := none
  overrides : Option (List (String × List (String × List Nat))) := none
deriving DecidableEq, Repr

/-- Lookup of the per-endpoint override mapping
`{'/endpoint/path': {'post': [202, 400, 500]}}` at an exact
(path, method) pair. -/
def lookup_override (overrides : List (String × List (String × List Nat)))
    (path method : String) : Option (List Nat) :=
  match overrides.lookup path with
  | none => none
  | some methods => methods.lookup method

/-- Modelled from the spec: the response codes one operation must declare —
the body of `validate_minimal_responses` past its settings reads is absent
from the source file.  Per §4.5, an override for the exact (path, method)
pair fully replaces the default set; otherwise an operation with any
declared parameters needs the default set plus the parameterized set, and
any other operation needs the default set. -/
def required_responses (minimal minimal_with_params : List Nat)
    (overrides : List (String × List (String × List Nat)))
    (op : Operation) : List Nat :=
  match lookup_override overrides op.path op.method with
  | some codes => codes
  | none =>
      if op.has_parameters then minimal ++ minimal_with_params else minimal

/-- Modelled from the spec: the required codes an operation fails to
declare. -/
def missing_responses (minimal minimal_with_params : List Nat)
    (overrides : List (String × List (String × List Nat)))
    (op : Operation) : List Nat :=
  (required_responses minimal minimal_with_params overrides op).filter
    (fun code => ! op.responses.contains code)

/-- Modelled from the spec: every offending (path, method) pair with its
missing codes, gathered over all operations before failing. -/
def offending_operations (settings : MinimalResponsesSettings)
    (operations : List Operation) : List (String × String × List Nat) :=
  let minimal := settings.minimal_responses.getD [200, 400, 500]
  let minimal_with_params :=
    settings.minimal_responses_with_parameters.getD [404]
  let overrides := settings.overrides.getD []
  (operations.map (fun op =>
      (op.path, op.method,
        missing_responses minimal minimal_with_params overrides op))).filter
    (fun entry => entry.2.2 != [])

/-- Modelled from the spec: `validate_minimal_responses` — reads its three
settings with their defaults (src lines 365-373), then checks every
operation and raises a single error that enumerates every offending
(path, method) pair with its missing codes (`some` = raise, `none` =
pass). -/
def validate_minimal_responses (settings : MinimalResponsesSettings)
    (operations : List Operation) :
    Option (List (String × String × List Nat)) :=
  let offending := offending_operations settings operations
  if offending ≠ [] then some offending else none

/-- Claim C4: without an override an operation needs the minimal set
(default `[200, 400, 500]`), plus the parameterized set (default `[404]`)
when it declares parameters; an override for the exact (path, method) pair
fully replaces that; and the checker passes exactly when no operation has
missing codes, otherwise it raises once with the full enumeration of
offending pairs rather than stopping at the first. -/
theorem validate_minimal_responses_spec
    (minimal minimal_with_params : List Nat)
    (overrides : List (String × List (String × List Nat)))
    (op : Operation) (codes : List Nat)
    (settings : MinimalResponsesSettings) (operations : List Operation) :
    (lookup_override overrides op.path op.method = none →
        op.has_parameters = true →
        required_responses minimal minimal_with_params overrides op
          = minimal ++ minimal_with_params) ∧
    (lookup_override overrides op.path op.method = none →
        op.has_parameters = false →
        required_responses minimal minimal_with_params overrides op
          = minimal) ∧
    (lookup_override overrides op.path op.method = some codes →
        required_responses minimal minimal_with_params overrides op
          = codes) ∧
    (validate_minimal_responses settings operations = none ↔
      ∀ o ∈ operations,
        missing_responses (settings.minimal_responses.getD [200, 400, 500])
          (settings.minimal_responses_with_parameters.getD [404])
          (settings.overrides.getD []) o = []) ∧
    (offending_operations settings operations ≠ [] →
      validate_minimal_responses settings operations
        = some (offending_operations settings operations)) := by
  refine ⟨?_, ?_, ?_, ?_, ?_⟩
  · intro hov hp
    simp [required_responses, hov, hp]
  · intro hov hp
    simp [required_responses, hov, hp]
  · intro hov
    simp [required_responses, hov]
  · constructor
    · intro h o ho
      by_cases he : offending_operations settings operations = []
      · have := List.filter_eq_nil_iff.mp he
          (o.path, o.method,
            missing_responses (settings.minimal_responses.getD [200, 400, 500])
              (settings.minimal_responses_with_parameters.getD [404])
              (settings.overrides.getD []) o)
          (List.mem_map_of_mem _ ho)
        simpa using this
      · simp [validate_minimal_responses, he] at h
    · intro h
      have he : offending_operations settings operations = [] := by
        refine List.filter_eq_nil_iff.mpr ?_
        intro entry hentry
        obtain ⟨o, ho, rfl⟩ := List.mem_map.mp hentry
        simpa using h o ho
      simp [validate_minimal_responses, he]
  · intro h
    simp [validate_minimal_responses, h]

/-- Concrete run of `validate_minimal_responses_spec`: default settings, one
parameterized `GET /foo` declaring only 200; the checker raises naming the
pair with missing codes 400, 500 and 404. -/
theorem validate_minimal_responses_spec_witness :
    validate_minimal_responses {} [⟨"/foo", "get", [200], true⟩]
      = some [("/foo", "get", [400, 500, 404])] :=
  (validate_minimal_responses_spec [] [] [] ⟨"", "", [], false⟩ []
      {} [⟨"/foo", "get", [200], true⟩]).2.2.2.2 (by decide)

end PyramidOpenapi3
